import Mathlib

/-!
Verification of the table-normalization logic of the nba-player-stats repository.

The embedded code is `get_stats_fixed` from `fix_basketball_reference.py` (the
spec's `normalize` is its lines 62-94) and the MCP tool handler
`get_player_career_stats` from `src/server.py`.

Modelling conventions:
* A pandas DataFrame is a `Table`: an ordered column-label list plus a list of
  rows, each row a list of cells.  A cell is `Option String`; `none` models a
  pandas `NaN`.  Tables coming from `pd.read_html` carry a dense positional
  `RangeIndex`, so row labels coincide with list positions and the model keeps
  rows purely positional (`reset_index` is then the identity on content).
* Python fallible operations (pandas `KeyError`, `ValueError`,
  `ConnectionError`) are modelled with `Except String`.
* Python's `str.lower` / `str.upper` / `str.endswith` are modelled by
  `pyLower` / `pyUpper` / `endswith` below, character-wise maps over the
  string data (these agree with `String.toLower` / `String.toUpper` /
  `String.endsWith` on the ASCII labels that occur here).
-/

namespace NbaStats

/-- A table cell; `none` models a pandas `NaN` / missing value. -/
abbrev Cell := Option String

/-- A parsed statistics table: ordered column labels and positional rows. -/
structure Table where
  header : List String
  rows : List (List Cell)
deriving DecidableEq, Repr

/-- The empty DataFrame `pd.DataFrame()`. -/
def Table.empty : Table := ⟨[], []⟩

/-- Python `s.lower()` (ASCII, as used on the stat-type strings here). -/
def pyLower (s : String) : String := ⟨s.data.map Char.toLower⟩

/-- Python `s.upper()` (ASCII, as used on the column labels here). -/
def pyUpper (s : String) : String := ⟨s.data.map Char.toUpper⟩

/-- Python `s.endswith(suffix)`. -/
def endswith (s suffix : String) : Bool := suffix.data.isSuffixOf s.data

/-- `df[column][index]`-style cell access: the cell of row `r` in column
position `j`.  Out-of-range access yields `none` (rows are rectangular in
pandas, so this case does not arise on real tables). -/
def cellAt (r : List Cell) (j : Nat) : Cell := (r[j]?).getD none

/-- Lines 63-64: the fixed header mapping of
`df.rename(columns={'Season': 'SEASON', 'Age': 'AGE', 'Tm': 'TEAM',
'Lg': 'LEAGUE', 'Pos': 'POS', 'Awards': 'AWARDS'})`, per label. -/
def renameLabel (l : String) : String :=
  if l = "Season" then "SEASON"
  else if l = "Age" then "AGE"
  else if l = "Tm" then "TEAM"
  else if l = "Lg" then "LEAGUE"
  else if l = "Pos" then "POS"
  else if l = "Awards" then "AWARDS"
  else l

/-- Lines 63-64: the unconditional fixed-mapping rename pass. -/
def renameFixed (t : Table) : Table := ⟨t.header.map renameLabel, t.rows⟩

/-- One guarded rename `if old in df.columns: df.rename(columns={old: new})`;
pandas renames every occurrence of the label. -/
def renameOne (old new : String) (t : Table) : Table :=
  if t.header.contains old then
    ⟨t.header.map (fun l => if l = old then new else l), t.rows⟩
  else t

/-- Lines 65-70: the positional-duplicate disambiguation renames
`FG.1 -> FG%`, `eFG -> eFG%`, `FT.1 -> FT%`, in source order. -/
def renameDup (t : Table) : Table :=
  renameOne "FT.1" "FT%" (renameOne "eFG" "eFG%" (renameOne "FG.1" "FG%" t))

/-- Positions (among `rows`, starting at `i`) of rows whose cell in column `j`
is the sentinel `"Career"`; models `df[df['SEASON']=='Career'].index` (row
labels equal positions under the `RangeIndex` produced by `pd.read_html`). -/
def careerIdxsFrom (j : Nat) : Nat → List (List Cell) → List Nat
  | _, [] => []
  | i, r :: rs =>
    if cellAt r j = some "Career" then i :: careerIdxsFrom j (i + 1) rs
    else careerIdxsFrom j (i + 1) rs

/-- Lines 72-79: the sentinel location pass.  `df['SEASON']` raises a
`KeyError` when the column is absent; when career rows exist,
`career_index = career_rows[0]` and the table is positionally sliced with
`df.iloc[career_index+2:]` (career aggregate wanted) or
`df.iloc[:career_index]` (season rows wanted). -/
def careerSplit (t : Table) (career : Bool) : Except String Table :=
  match List.findIdx? (fun l => l == "SEASON") t.header with
  | none => Except.error "KeyError: SEASON"
  | some j =>
    match careerIdxsFrom j 0 t.rows with
    | [] => Except.ok t
    | k :: _ =>
      if career then Except.ok ⟨t.header, t.rows.drop (k + 2)⟩
      else Except.ok ⟨t.header, t.rows.take k⟩

/-- Lines 81-86, header part: rename every column whose value in the first
remaining row `r` is `NaN` to its upper-cased name with a trailing `%`.
The source loop renames by label; on headers without duplicate labels (the
only headers pandas itself accepts in that loop) this coincides with the
positional recursion used here.  A column beyond the end of `r` cannot occur
on pandas' rectangular tables. -/
def pctHeader (r : List Cell) : List String → List String
  | [] => []
  | l :: hs =>
    match r with
    | [] => (pyUpper l ++ "%") :: pctHeader [] hs
    | c :: cs =>
      (if c = none then pyUpper l ++ "%" else l) :: pctHeader cs hs

/-- Lines 81-86: the first-row-missing-value percentage heuristic;
skipped when the table has no rows (`if len(df) > 0`). -/
def pctRename (t : Table) : Table :=
  match t.rows with
  | [] => t
  | r :: _ => ⟨pctHeader r t.header, t.rows⟩

/-- Line 88: the category condition
`stat_type.endswith('_advanced') or stat_type == 'advanced'`. -/
def advancedCond (st : String) : Bool :=
  endswith st "_advanced" || st == "advanced"

/-- Cells of one row surviving a column drop: a cell is kept exactly when its
column label is not among the dropped names. -/
def filterCols (names : List String) : List String → List Cell → List Cell
  | [], _ => []
  | _ :: _, [] => []
  | l :: hs, c :: cs =>
    if names.contains l then filterCols names hs cs
    else c :: filterCols names hs cs

/-- `df.drop(names, axis=1)`: removes every occurrence of the named columns. -/
def dropCols (names : List String) (t : Table) : Table :=
  ⟨t.header.filter (fun l => !(names.contains l)),
   t.rows.map (filterCols names t.header)⟩

/-- Lines 88-89: `df.drop(['G', 'MP'], axis=1)` under the advanced-category
condition; pandas raises a `KeyError` when either label is absent. -/
def advancedDrop (st : String) (t : Table) : Except String Table :=
  if advancedCond st then
    if t.header.contains "G" && t.header.contains "MP" then
      Except.ok (dropCols ["G", "MP"] t)
    else Except.error "KeyError: [G, MP] not found in axis"
  else Except.ok t

/-- Lines 91-92: `df.reset_index().drop('index', axis=1)` renumbers the
positional index and leaves header and row content unchanged; the model keeps
rows positionally, so this is the identity on content. -/
def resetIndex (t : Table) : Table := t

/-- Lines 62-94 of `get_stats_fixed`: the spec's
`normalize(rawTable, category, includePlayoffs, wantCareerAggregateOnly)`.
`includePlayoffs` only selects the raw source upstream and does not occur in
this code.  `st` is the already-lowercased stat type (line 29). -/
def normalize (t : Table) (st : String) (career : Bool) : Except String Table :=
  (careerSplit (renameDup (renameFixed t)) career).bind (fun u =>
    (advancedDrop st (pctRename u)).map (fun v =>
      if career then v else resetIndex v))

/-- The upstream collaborators consumed by `get_stats_fixed` (lines 24-57):
`suffix` is `get_player_suffix(lookup(_name, ask_matches))` (`none` models a
falsy suffix); `status` is the HTTP status of `get_wrapper` on the player
page; `findTable id` is the table with that id in the fetched document
(`soup.find('table', {'id': id})`), when present; `selenium id` is the
`get_selenium_wrapper` result for the xpath of that id (`None` when the
table is absent or the fetch fails). -/
structure ScraperEnv where
  suffix : Option String
  status : Nat
  findTable : String → Option Table
  selenium : String → Option Table

/-- Line 52's `table = str(table)`: the stringified `soup.find` result.
When `soup.find` returns `None`, `str(None)` is the literal string
`"None"`, not the Python value `None`. -/
inductive HtmlStr where
  | real (t : Table)
  | noneStr
deriving DecidableEq, Repr

/-- Lines 33-39: `table_id_map.get(stat_type, stat_type)`. -/
def table_id_map (st : String) : String :=
  if st = "per_game" then "per_game_stats"
  else if st = "totals" then "totals_stats"
  else if st = "per_minute" then "per_minute_stats"
  else if st = "per_poss" then "per_poss_stats"
  else if st = "advanced" then "advanced"
  else st

/-- Line 62: `pd.read_html(StringIO(table))[0]`.  On the string `"None"`
there is no table element to parse and pandas raises a `ValueError`. -/
def read_html : HtmlStr → Except String Table
  | .real t => Except.ok t
  | .noneStr => Except.error "ValueError: No tables found"

/-- Lines 29-94 of `get_stats_fixed`, after the suffix check: `st` is the
lowercased stat type.  Mirrors the branch structure of lines 42-60 and then
parses and normalizes the table. -/
def get_stats_lowered (env : ScraperEnv) (st : String) (playoffs career : Bool) :
    Except String Table :=
  let tid := if playoffs then table_id_map st ++ "_post" else table_id_map st
  let tableStep : Except String (Option HtmlStr) :=
    if (st == "per_game" || st == "totals" || st == "advanced") && !playoffs then
      if env.status = 200 then
        Except.ok (some (match env.findTable tid with
          | some t => HtmlStr.real t
          | none => HtmlStr.noneStr))
      else Except.error "ConnectionError: Request to basketball reference failed"
    else if (st == "per_minute" || st == "per_poss") || playoffs then
      Except.ok ((env.selenium tid).map HtmlStr.real)
    else Except.ok none
  tableStep.bind (fun table =>
    match table with
    | none => Except.ok Table.empty
    | some h => (read_html h).bind (fun df => normalize df st career))

/-- Lines 22-94: `get_stats_fixed(_name, stat_type, playoffs, career,
ask_matches)`.  An unresolvable player suffix returns the empty DataFrame
(lines 26-27); otherwise the stat type is lowercased (line 29) before any
use. -/
def get_stats_fixed (env : ScraperEnv) (_name stat_type : String)
    (playoffs career : Bool) : Except String Table :=
  match env.suffix with
  | none => Except.ok Table.empty
  | some _ => get_stats_lowered env (pyLower stat_type) playoffs career

/-! ### The MCP tool handler `get_player_career_stats` (`src/server.py`) -/

/-- A JSON-like value in a tool response mapping. -/
inductive Val where
  | str (s : String)
  | nat (n : Nat)
  | record (r : List (String × Cell))
  | records (rs : List (List (String × Cell)))
  | null
deriving DecidableEq, Repr

/-- A tool response: the nested mapping returned by a handler. -/
abbrev Response := List (String × Val)

/-- The numeric value of a digit run, `none` on empty or non-digit input. -/
def digitsVal (l : List Char) : Option Nat :=
  if !l.isEmpty && l.all Char.isDigit then
    some (l.foldl (fun n c => n * 10 + (c.toNat - 48)) 0)
  else none

/-- Plain decimal parsing — the shape `pd.to_numeric` meets in these tables
(`"82"`, `"25.0"`, `"-3.5"`); anything else coerces to `NaN` (`none`). -/
def parseDecimal (s : String) : Option ℚ :=
  let signSplit : Bool × List Char :=
    match s.data with
    | '-' :: rest => (true, rest)
    | cs => (false, cs)
  match signSplit.2.splitOn '.' with
  | [w] => (digitsVal w).map (fun n => if signSplit.1 then -(n : ℚ) else (n : ℚ))
  | [w, f] =>
    match digitsVal w, digitsVal f with
    | some wn, some fn =>
      let q : ℚ := (wn : ℚ) + (fn : ℚ) / ((10 : ℚ) ^ f.length)
      some (if signSplit.1 then -q else q)
    | _, _ => none
  | _ => none

/-- `pd.to_numeric(x, errors='coerce')` on a cell: `NaN` stays `NaN`. -/
def toNumeric (c : Cell) : Option ℚ := c.bind parseDecimal

/-- `Series.idxmax` over (label, value) pairs: the label of the first
occurrence of the maximal value; `none` on an empty series. -/
def idxmaxQ (l : List (Nat × ℚ)) : Option Nat :=
  (l.foldl (fun acc p =>
    match acc with
    | Option.none => some p
    | some q => if p.2 > q.2 then some p else some q) Option.none).map Prod.fst

/-- `row.to_dict()` under a header: one record of a `to_dict('records')`
result. -/
def toRecord (hdr : List String) (r : List Cell) : List (String × Cell) :=
  hdr.zip r

/-- Lines 123-137 of `server.py`: the best-scoring-season block.  `jS` and
`jP` are the positions of the `SEASON` and `PTS` columns of `regular`; row
labels equal positions because `get_stats_fixed(..., career=False)` ends in
`reset_index`.  The final `best_season if best_season else None` maps an
empty record to `None`. -/
def bestScoringSeason (regular : Table) (jS jP : Nat) : Val :=
  let seasonRows := regular.rows.filter (fun r => !(cellAt r jS == some "Career"))
  if seasonRows.isEmpty then Val.null
  else
    let valid := (regular.rows.enum.filter
        (fun p => !(cellAt p.2 jS == some "Career"))).filterMap
      (fun p => (toNumeric (cellAt p.2 jP)).map (fun q => (p.1, q)))
    match idxmaxQ valid with
    | Option.none => Val.null
    | some lbl =>
      match regular.rows[lbl]? with
      | some r =>
        let rcd := toRecord regular.header r
        if rcd.isEmpty then Val.null else Val.record rcd
      | Option.none => Val.null

/-- Lines 98-154 of `server.py`: the body of `get_player_career_stats`
inside its `try`.  Every pandas operation that can raise is `Except`-valued;
`return {"error": ...}` inside the `try` is a normal return of an
error-shaped mapping. -/
def get_player_career_stats_body (env : ScraperEnv) (player_name stat_type : String) :
    Except String Response :=
  match get_stats_fixed env player_name stat_type false false with
  | Except.error e => Except.error e
  | Except.ok regular =>
    match get_stats_fixed env player_name stat_type true false with
    | Except.error e => Except.error e
    | Except.ok playoff =>
      if regular.rows.isEmpty then
        Except.ok [("error", Val.str ("No stats found for " ++ player_name))]
      else
        match List.findIdx? (fun l => l == "SEASON") regular.header with
        | Option.none => Except.error "KeyError: SEASON"
        | some jS =>
          let careerRows := regular.rows.filter (fun r => cellAt r jS == some "Career")
          let career_stats : Val :=
            match careerRows with
            | [] => Val.record []
            | r :: _ => Val.record (toRecord regular.header r)
          let seasonRows := regular.rows.filter (fun r => !(cellAt r jS == some "Career"))
          let best : Val :=
            if stat_type == "PER_GAME" && regular.header.contains "PTS" then
              bestScoringSeason regular jS
                ((List.findIdx? (fun l => l == "PTS") regular.header).getD 0)
            else Val.null
          let base : Response :=
            [("player_name", Val.str player_name),
             ("stat_type", Val.str stat_type),
             ("career_regular_season", career_stats),
             ("seasons", Val.records (seasonRows.map (toRecord regular.header))),
             ("total_seasons", Val.nat seasonRows.length),
             ("best_scoring_season", best)]
          if playoff.rows.isEmpty then Except.ok base
          else
            match List.findIdx? (fun l => l == "SEASON") playoff.header with
            | Option.none => Except.error "KeyError: SEASON"
            | some jQ =>
              let playoffCareer : Val :=
                match playoff.rows.filter (fun r => cellAt r jQ == some "Career") with
                | [] => Val.record []
                | r :: _ => Val.record (toRecord playoff.header r)
              Except.ok (base ++
                [("career_playoffs", playoffCareer),
                 ("playoff_seasons", Val.records
                   ((playoff.rows.filter (fun r => !(cellAt r jQ == some "Career"))).map
                     (toRecord playoff.header)))])

/-- Lines 84-158 of `server.py`: the remote-callable tool
`get_player_career_stats`.  The whole body sits inside `try:`; the
`except Exception` boundary at lines 156-158 converts any fault into
`{"error": str(e)}`. -/
def get_player_career_stats (env : ScraperEnv) (player_name stat_type : String) :
    Response :=
  match get_player_career_stats_body env player_name stat_type with
  | Except.ok r => r
  | Except.error e => [("error", Val.str e)]

end NbaStats

deriving instance DecidableEq for Except

namespace NbaStats

/-! ### Helper lemmas -/

theorem renameFixed_rows (t : Table) : (renameFixed t).rows = t.rows := rfl

theorem renameOne_rows (o n : String) (t : Table) : (renameOne o n t).rows = t.rows := by
  unfold renameOne
  split <;> rfl

theorem renameDup_rows (t : Table) : (renameDup t).rows = t.rows := by
  unfold renameDup
  rw [renameOne_rows, renameOne_rows, renameOne_rows]

theorem renameDup_renameFixed_rows (t : Table) :
    (renameDup (renameFixed t)).rows = t.rows := by
  rw [renameDup_rows, renameFixed_rows]

theorem pctRename_rows (t : Table) : (pctRename t).rows = t.rows := by
  unfold pctRename
  split <;> rfl

theorem cellAt_nil (i : Nat) : cellAt [] i = none := rfl

theorem cellAt_cons_succ (c : Cell) (cs : List Cell) (i : Nat) :
    cellAt (c :: cs) (i + 1) = cellAt cs i := by
  simp [cellAt]

theorem pctHeader_getElem? (r : List Cell) (hdr : List String) (i : Nat) :
    (pctHeader r hdr)[i]? =
      (hdr[i]?).map (fun l => if cellAt r i = none then pyUpper l ++ "%" else l) := by
  induction hdr generalizing r i with
  | nil => simp [pctHeader]
  | cons l hs ih =>
    cases r with
    | nil =>
      cases i with
      | zero => simp [pctHeader, cellAt]
      | succ i =>
        simp only [pctHeader, List.getElem?_cons_succ]
        rw [ih [] i, cellAt_nil, cellAt_nil]
    | cons c cs =>
      cases i with
      | zero => simp [pctHeader, cellAt]
      | succ i =>
        simp only [pctHeader, List.getElem?_cons_succ]
        rw [ih cs i, cellAt_cons_succ]

theorem pyUpper_append_pct_ne (l : String) : pyUpper l ++ "%" ≠ l := by
  intro h
  have hd := congrArg String.data h
  rw [String.data_append] at hd
  have hlen := congrArg List.length hd
  rw [List.length_append] at hlen
  have h1 : ("%" : String).data.length = 1 := rfl
  have h2 : (pyUpper l).data.length = l.data.length := List.length_map _ _
  omega

theorem renameFixed_getElem? (t : Table) (p : Nat) :
    (renameFixed t).header[p]? = (t.header[p]?).map renameLabel := by
  unfold renameFixed
  exact List.getElem?_map renameLabel t.header p

theorem renameOne_getElem?_ne (o n : String) (t : Table) (p : Nat) (l : String)
    (h : t.header[p]? = some l) (hne : l ≠ o) :
    (renameOne o n t).header[p]? = some l := by
  unfold renameOne
  split
  · rw [List.getElem?_map, h]
    simp [hne]
  · exact h

theorem renameOne_getElem?_eq (o n : String) (t : Table) (p : Nat)
    (h : t.header[p]? = some o) :
    (renameOne o n t).header[p]? = some n := by
  have hc : t.header.contains o = true := by
    exact List.elem_iff.mpr (List.getElem?_mem h)
  unfold renameOne
  rw [if_pos hc, List.getElem?_map, h]
  simp

theorem renameLabel_idem (l : String) : renameLabel (renameLabel l) = renameLabel l := by
  by_cases h1 : l = "Season"
  · subst h1; rfl
  by_cases h2 : l = "Age"
  · subst h2; rfl
  by_cases h3 : l = "Tm"
  · subst h3; rfl
  by_cases h4 : l = "Lg"
  · subst h4; rfl
  by_cases h5 : l = "Pos"
  · subst h5; rfl
  by_cases h6 : l = "Awards"
  · subst h6; rfl
  have hfix : renameLabel l = l := by
    unfold renameLabel
    rw [if_neg h1, if_neg h2, if_neg h3, if_neg h4, if_neg h5, if_neg h6]
  rw [hfix, hfix]

theorem char_toNat_ofNat_valid {n : Nat} (h : n < 55296) : (Char.ofNat n).toNat = n := by
  rw [Char.ofNat, dif_pos (Or.inl h : n.isValidChar)]
  rfl

theorem char_toLower_eq (c : Char) :
    c.toLower = if c.toNat ≥ 65 ∧ c.toNat ≤ 90 then Char.ofNat (c.toNat + 32) else c := rfl

theorem char_toLower_toLower (c : Char) : c.toLower.toLower = c.toLower := by
  by_cases h : c.toNat ≥ 65 ∧ c.toNat ≤ 90
  · have h1 : c.toLower = Char.ofNat (c.toNat + 32) := by
      rw [char_toLower_eq, if_pos h]
    have h2 : (Char.ofNat (c.toNat + 32)).toNat = c.toNat + 32 :=
      char_toNat_ofNat_valid (by omega)
    rw [h1, char_toLower_eq, h2, if_neg (by omega)]
  · have h1 : c.toLower = c := by
      rw [char_toLower_eq, if_neg h]
    rw [h1, h1]

theorem pyLower_pyLower (s : String) : pyLower (pyLower s) = pyLower s := by
  show String.mk ((s.data.map Char.toLower).map Char.toLower) = String.mk (s.data.map Char.toLower)
  rw [List.map_map]
  exact congrArg String.mk (List.map_congr_left (fun c _ => char_toLower_toLower c))

theorem careerSplit_someIdx_false (t1 : Table) (j k : Nat) (rest : List Nat)
    (hS : List.findIdx? (fun l => l == "SEASON") t1.header = some j)
    (hk : careerIdxsFrom j 0 t1.rows = k :: rest) :
    careerSplit t1 false = Except.ok ⟨t1.header, t1.rows.take k⟩ := by
  simp only [careerSplit, hS, hk]
  rfl

theorem careerSplit_someIdx_true (t1 : Table) (j k : Nat) (rest : List Nat)
    (hS : List.findIdx? (fun l => l == "SEASON") t1.header = some j)
    (hk : careerIdxsFrom j 0 t1.rows = k :: rest) :
    careerSplit t1 true = Except.ok ⟨t1.header, t1.rows.drop (k + 2)⟩ := by
  simp only [careerSplit, hS, hk]
  rfl

theorem careerSplit_noIdx (t1 : Table) (car : Bool) (j : Nat)
    (hS : List.findIdx? (fun l => l == "SEASON") t1.header = some j)
    (hk : careerIdxsFrom j 0 t1.rows = []) :
    careerSplit t1 car = Except.ok t1 := by
  simp only [careerSplit, hS, hk]

theorem advancedDrop_notAdv (st : String) (u : Table) (h : advancedCond st = false) :
    advancedDrop st u = Except.ok u := by
  simp [advancedDrop, h]

theorem advancedDrop_adv (st : String) (u : Table) (h : advancedCond st = true)
    (hG : u.header.contains "G" = true) (hMP : u.header.contains "MP" = true) :
    advancedDrop st u = Except.ok (dropCols ["G", "MP"] u) := by
  simp only [advancedDrop, h, hG, hMP, Bool.and_self, if_true]
  try rfl

theorem if_car_resetIndex (car : Bool) (v : Table) :
    (if car then v else resetIndex v) = v := by
  cases car <;> rfl

/-! ### Claim theorems -/

/-- The end-to-end scenario table of the spec (§8): raw rows
`2021-22`, `Career`, a blank separator row, `2020-21`, with the Career
sentinel at positional index 1. -/
def exampleTable : Table :=
  ⟨["Season", "PTS"],
   [[some "2021-22", some "25.0"],
    [some "Career", some "27.2"],
    [Option.none, Option.none],
    [some "2020-21", some "29.1"]]⟩

/-- A table with exactly one Career row (at index 1) that also carries the
`G` and `MP` columns, so the ADVANCED category alters the surviving rows. -/
def tCareerGMP : Table :=
  ⟨["Season", "G", "MP"],
   [[some "2021-22", some "82", some "38.0"],
    [some "Career", some "82", some "38.0"]]⟩

/-- C1 counterexample: a table with exactly one Career row at index 1 on
which `normalize` with `wantCareerAggregateOnly = false` does not return
exactly the first row — under the ADVANCED category (about which the claim
is silent) the `G` and `MP` cells are dropped from the surviving row, so the
result differs from the first `k` raw rows. -/
theorem C1_counterexample :
    (careerIdxsFrom 0 0 (renameDup (renameFixed tCareerGMP)).rows = [1]) ∧
    normalize tCareerGMP "advanced" false =
      Except.ok ⟨["SEASON"], [[some "2021-22"]]⟩ ∧
    [[(some "2021-22" : Cell)]] ≠ tCareerGMP.rows.take 1 := by
  refine ⟨by decide, rfl, by decide⟩

/-- C1 (amended): for a table whose (renamed) SEASON column sits at position
`j` and which has exactly one `"Career"` row, at positional index `k`
(`careerIdxsFrom j 0 ... = [k]`), and for any non-ADVANCED category — under
ADVANCED the retained rows additionally lose their `G` and `MP` cells, as
the counterexample shows — `normalize` with
`wantCareerAggregateOnly = false` keeps exactly the first `k` rows and with
`wantCareerAggregateOnly = true` keeps exactly the rows from index `k + 2`
onward; in particular, on the spec's example table with the Career row at
index 1, `wantCareerAggregateOnly = false` yields the single row
`[{"SEASON": "2021-22", "PTS": "25.0"}]`. -/
theorem C1_career_split (t : Table) (st : String) (j k : Nat)
    (hS : List.findIdx? (fun l => l == "SEASON") (renameDup (renameFixed t)).header = some j)
    (hk : careerIdxsFrom j 0 (renameDup (renameFixed t)).rows = [k])
    (hCat : advancedCond st = false) :
    (∃ u, normalize t st false = Except.ok u ∧ u.rows = t.rows.take k) ∧
    (∃ v, normalize t st true = Except.ok v ∧ v.rows = t.rows.drop (k + 2)) ∧
    normalize exampleTable "per_game" false =
      Except.ok ⟨["SEASON", "PTS"], [[some "2021-22", some "25.0"]]⟩ := by
  refine ⟨?_, ?_, rfl⟩
  · refine ⟨pctRename ⟨(renameDup (renameFixed t)).header,
      (renameDup (renameFixed t)).rows.take k⟩, ?_, ?_⟩
    · simp only [normalize, careerSplit_someIdx_false _ j k [] hS hk,
        advancedDrop_notAdv st _ hCat, Except.bind, Except.map, if_car_resetIndex]
    · rw [pctRename_rows]
      show ((renameDup (renameFixed t)).rows.take k) = t.rows.take k
      rw [renameDup_renameFixed_rows]
  · refine ⟨pctRename ⟨(renameDup (renameFixed t)).header,
      (renameDup (renameFixed t)).rows.drop (k + 2)⟩, ?_, ?_⟩
    · simp only [normalize, careerSplit_someIdx_true _ j k [] hS hk,
        advancedDrop_notAdv st _ hCat, Except.bind, Except.map, if_car_resetIndex]
      rfl
    · rw [pctRename_rows]
      show ((renameDup (renameFixed t)).rows.drop (k + 2)) = t.rows.drop (k + 2)
      rw [renameDup_renameFixed_rows]

/-- C1 witness: the hypotheses hold on the spec's example table (SEASON at
column 0, the single Career row at index 1, category `per_game`), and
`normalize ... false` keeps exactly the first row. -/
theorem C1_career_split_witness :
    (List.findIdx? (fun l => l == "SEASON")
        (renameDup (renameFixed exampleTable)).header = some 0) ∧
    (careerIdxsFrom 0 0 (renameDup (renameFixed exampleTable)).rows = [1]) ∧
    advancedCond "per_game" = false ∧
    (∃ u, normalize exampleTable "per_game" false = Except.ok u ∧
      u.rows = exampleTable.rows.take 1) :=
  ⟨by decide, by decide, by decide,
   (C1_career_split exampleTable "per_game" 0 1 (by decide) (by decide) (by decide)).1⟩

/-- A no-Career-row table with the `G` and `MP` columns, on which the
ADVANCED category alters the values, not just the column names. -/
def tNoCareerGMP : Table :=
  ⟨["Season", "G", "MP"], [[some "2021-22", some "82", some "38.0"]]⟩

/-- C2 counterexample: on a table with no Career row, `normalize` under the
ADVANCED category does not return the table unchanged aside from the
fixed-mapping and duplicate-label rename passes — it also drops the `G` and
`MP` columns, changing the row values. -/
theorem C2_counterexample :
    normalize tNoCareerGMP "advanced" false ≠
      Except.ok (renameDup (renameFixed tNoCareerGMP)) ∧
    normalize tNoCareerGMP "advanced" false =
      Except.ok ⟨["SEASON"], [[some "2021-22"]]⟩ := by
  constructor
  · decide
  · rfl

/-- C2 (amended): for a table with no Career row (and a SEASON column, which
the sentinel scan requires), under any non-ADVANCED category and either
flag value, `normalize` returns the table unchanged aside from the rename
passes — the fixed-mapping rename, the duplicate-label rename, and the
first-row-missing-value percentage rename: same rows, same values, same
row order. -/
theorem C2_no_career_passthrough (t : Table) (st : String) (car : Bool) (j : Nat)
    (hS : List.findIdx? (fun l => l == "SEASON") (renameDup (renameFixed t)).header = some j)
    (hNo : careerIdxsFrom j 0 (renameDup (renameFixed t)).rows = [])
    (hCat : advancedCond st = false) :
    normalize t st car = Except.ok (pctRename (renameDup (renameFixed t))) ∧
    (pctRename (renameDup (renameFixed t))).rows = t.rows := by
  constructor
  · simp only [normalize, careerSplit_noIdx _ car j hS hNo,
      advancedDrop_notAdv st _ hCat, Except.bind, Except.map, if_car_resetIndex]
  · rw [pctRename_rows, renameDup_renameFixed_rows]

/-- C2 witness: a concrete one-row no-Career table on which the amended
pass-through holds with category `per_game`. -/
theorem C2_no_career_passthrough_witness :
    (List.findIdx? (fun l => l == "SEASON")
        (renameDup (renameFixed ⟨["Season", "PTS"], [[some "2021-22", some "25.0"]]⟩)).header
      = some 0) ∧
    (careerIdxsFrom 0 0
        (renameDup (renameFixed (⟨["Season", "PTS"], [[some "2021-22", some "25.0"]]⟩ : Table))).rows
      = []) ∧
    advancedCond "per_game" = false ∧
    normalize ⟨["Season", "PTS"], [[some "2021-22", some "25.0"]]⟩ "per_game" false =
      Except.ok (pctRename (renameDup (renameFixed
        ⟨["Season", "PTS"], [[some "2021-22", some "25.0"]]⟩))) :=
  ⟨by decide, by decide, by decide,
   (C2_no_career_passthrough ⟨["Season", "PTS"], [[some "2021-22", some "25.0"]]⟩
     "per_game" false 0 (by decide) (by decide) (by decide)).1⟩

/-- C5 counterexample: on the empty RawTable (no rows, hence no columns),
`normalize` does not return an empty CanonicalTable — the sentinel scan's
`df['SEASON']` lookup faults with a KeyError, for instance under
PER_GAME. -/
theorem C5_counterexample :
    normalize Table.empty "per_game" false = Except.error "KeyError: SEASON" := by
  rfl

/-- C5 (amended): for every zero-row table whose renamed header contains a
SEASON column — and, when the category is ADVANCED, also the `G` and `MP`
columns — `normalize` returns a zero-row table for every category and flag
combination, without fault.  (`get_stats_fixed` itself never feeds the
zero-column empty DataFrame to the normalization steps: when no table is
found upstream it returns that empty DataFrame directly.) -/
theorem C5_empty_rows (t : Table) (st : String) (car : Bool) (j : Nat)
    (hrows : t.rows = [])
    (hS : List.findIdx? (fun l => l == "SEASON") (renameDup (renameFixed t)).header = some j)
    (hAdv : advancedCond st = true →
      (renameDup (renameFixed t)).header.contains "G" = true ∧
      (renameDup (renameFixed t)).header.contains "MP" = true) :
    ∃ v, normalize t st car = Except.ok v ∧ v.rows = [] := by
  have ht1 : (renameDup (renameFixed t)).rows = [] := by
    rw [renameDup_renameFixed_rows, hrows]
  have hpct : pctRename (renameDup (renameFixed t)) = renameDup (renameFixed t) := by
    unfold pctRename
    rw [ht1]
  have hidx : careerIdxsFrom j 0 (renameDup (renameFixed t)).rows = [] := by
    rw [ht1]
    rfl
  cases hA : advancedCond st with
  | false =>
    refine ⟨renameDup (renameFixed t), ?_, ht1⟩
    simp only [normalize, careerSplit_noIdx _ car j hS hidx, hpct,
      advancedDrop_notAdv st _ hA, Except.bind, Except.map, if_car_resetIndex]
  | true =>
    refine ⟨dropCols ["G", "MP"] (renameDup (renameFixed t)), ?_, ?_⟩
    · simp only [normalize, careerSplit_noIdx _ car j hS hidx, hpct,
        advancedDrop_adv st _ hA (hAdv hA).1 (hAdv hA).2,
        Except.bind, Except.map, if_car_resetIndex]
    · show ((renameDup (renameFixed t)).rows.map _) = []
      rw [ht1]
      rfl

/-- C5 witness: a zero-row table with header `Season, G, MP`, normalized
under the ADVANCED category, yields a zero-row table without fault. -/
theorem C5_empty_rows_witness :
    ((⟨["Season", "G", "MP"], []⟩ : Table).rows = []) ∧
    advancedCond "advanced" = true ∧
    (∃ v, normalize ⟨["Season", "G", "MP"], []⟩ "advanced" true = Except.ok v ∧
      v.rows = []) :=
  ⟨rfl, by decide,
   C5_empty_rows ⟨["Season", "G", "MP"], []⟩ "advanced" true 0 rfl (by decide)
     (fun _ => ⟨by decide, by decide⟩)⟩

/-- C9: the fixed-mapping column rename pass is idempotent — applying it
twice yields exactly the same table as applying it once. -/
theorem C9_rename_idempotent (t : Table) :
    renameFixed (renameFixed t) = renameFixed t := by
  unfold renameFixed
  simp only [List.map_map]
  exact congrArg (fun h => Table.mk h t.rows)
    (List.map_congr_left (fun l _ => renameLabel_idem l))

/-- C10: the `stat_type` argument of `get_stats_fixed` is case-insensitive —
for every environment, player name, playoffs flag and career flag, the
result with stat type `S` equals the result with the lowercased form of
`S`, because the argument is lowercased (line 29) before any use. -/
theorem C10_stat_type_case_insensitive (env : ScraperEnv) (name st : String)
    (playoffs career : Bool) :
    get_stats_fixed env name st playoffs career =
      get_stats_fixed env name (pyLower st) playoffs career := by
  unfold get_stats_fixed
  cases env.suffix with
  | none => rfl
  | some s => rw [pyLower_pyLower]

/-- C3: after the career/season split, the percentage-heuristic pass renames
a column to its upper-cased name with a trailing `%` appended exactly when
its value in the first remaining row is missing (regardless of its values in
other rows); columns whose first-remaining-row value is present keep their
names unchanged (and a renamed label always differs from the original, so
the two cases are disjoint); rows are untouched; and inside `normalize` this
pass is applied exactly once per table, between the split and the category
drop. -/
theorem C3_pct_heuristic (t : Table) (r : List Cell) (rs : List (List Cell))
    (hrows : t.rows = r :: rs) :
    (∀ i l, t.header[i]? = some l →
      (cellAt r i = Option.none → (pctRename t).header[i]? = some (pyUpper l ++ "%")) ∧
      (cellAt r i ≠ Option.none → (pctRename t).header[i]? = some l)) ∧
    (∀ l : String, pyUpper l ++ "%" ≠ l) ∧
    (pctRename t).rows = t.rows ∧
    (∀ u st car, normalize u st car =
      (careerSplit (renameDup (renameFixed u)) car).bind (fun w =>
        (advancedDrop st (pctRename w)).map (fun v => if car then v else resetIndex v))) := by
  have hh : (pctRename t).header = pctHeader r t.header := by
    unfold pctRename
    rw [hrows]
  refine ⟨?_, pyUpper_append_pct_ne, pctRename_rows t, fun u st car => rfl⟩
  intro i l hl
  constructor
  · intro hc
    rw [hh, pctHeader_getElem?, hl, hc]
    simp
  · intro hc
    rw [hh, pctHeader_getElem?, hl]
    exact congrArg some (if_neg hc)

/-- C3 witness: on a two-row table whose `fg` column is missing in the first
row but present in the second, the pass renames `fg` to `FG%` (the first row
alone decides) and leaves `Season`, whose first-row value is present,
unchanged. -/
theorem C3_pct_heuristic_witness :
    ((⟨["Season", "fg"], [[some "2021-22", Option.none], [some "2020-21", some "41.2"]]⟩ :
        Table).rows =
      [some "2021-22", Option.none] :: [[some "2020-21", some "41.2"]]) ∧
    (pctRename ⟨["Season", "fg"],
        [[some "2021-22", Option.none], [some "2020-21", some "41.2"]]⟩).header[1]? =
      some "FG%" ∧
    (pctRename ⟨["Season", "fg"],
        [[some "2021-22", Option.none], [some "2020-21", some "41.2"]]⟩).header[0]? =
      some "Season" := by
  refine ⟨rfl, ?_, ?_⟩
  · exact ((C3_pct_heuristic
      ⟨["Season", "fg"], [[some "2021-22", Option.none], [some "2020-21", some "41.2"]]⟩
      [some "2021-22", Option.none] [[some "2020-21", some "41.2"]] rfl).1
        1 "fg" rfl).1 rfl
  · exact ((C3_pct_heuristic
      ⟨["Season", "fg"], [[some "2021-22", Option.none], [some "2020-21", some "41.2"]]⟩
      [some "2021-22", Option.none] [[some "2020-21", some "41.2"]] rfl).1
        0 "Season" rfl).2 (by decide)

/-- A table with `G` and `MP` whose first row is missing the `G` value: the
percentage heuristic renames `G` to `G%`, after which the ADVANCED column
drop faults instead of dropping. -/
def tGMissing : Table :=
  ⟨["Season", "G", "MP"], [[some "2021-22", Option.none, some "30.0"]]⟩

/-- C4 counterexample: a table containing the `G` and `MP` columns on which
`normalize` under ADVANCED does not return a table missing them — it faults,
because the first-row-missing-value heuristic has renamed `G` to `G%` and
`df.drop(['G', 'MP'])` then raises a KeyError. -/
theorem C4_counterexample :
    normalize tGMissing "advanced" false =
      Except.error "KeyError: [G, MP] not found in axis" := by
  rfl

/-- C4 (amended): for every table whose career/season split succeeds and
whose `G` and `MP` columns survive the percentage-rename heuristic (their
values in the first remaining row are present — otherwise the ADVANCED drop
faults, as the counterexample shows), `normalize` under ADVANCED returns a
table in which both columns are absent, while under every other category
both columns are retained. -/
theorem C4_advanced_drop (t : Table) (st : String) (car : Bool) (u : Table)
    (hsplit : careerSplit (renameDup (renameFixed t)) car = Except.ok u)
    (hG : "G" ∈ (pctRename u).header) (hMP : "MP" ∈ (pctRename u).header) :
    (advancedCond st = true → ∃ v, normalize t st car = Except.ok v ∧
      "G" ∉ v.header ∧ "MP" ∉ v.header) ∧
    (advancedCond st = false → ∃ v, normalize t st car = Except.ok v ∧
      "G" ∈ v.header ∧ "MP" ∈ v.header) := by
  constructor
  · intro hA
    refine ⟨dropCols ["G", "MP"] (pctRename u), ?_, ?_, ?_⟩
    · simp only [normalize, hsplit, Except.bind,
        advancedDrop_adv st _ hA (List.elem_iff.mpr hG) (List.elem_iff.mpr hMP),
        Except.map, if_car_resetIndex]
      try rfl
    · intro hmem
      rcases List.mem_filter.mp hmem with ⟨-, hp⟩
      exact absurd hp (by decide)
    · intro hmem
      rcases List.mem_filter.mp hmem with ⟨-, hp⟩
      exact absurd hp (by decide)
  · intro hA
    refine ⟨pctRename u, ?_, hG, hMP⟩
    simp only [normalize, hsplit, Except.bind, advancedDrop_notAdv st _ hA,
      Except.map, if_car_resetIndex]
    try rfl

/-- C4 witness: on the no-Career table with present `G` and `MP` values,
ADVANCED yields a table without `G` and `MP` (and `per_game`, by the same
theorem, retains both). -/
theorem C4_advanced_drop_witness :
    advancedCond "advanced" = true ∧
    careerSplit (renameDup (renameFixed tNoCareerGMP)) false =
      Except.ok (renameDup (renameFixed tNoCareerGMP)) ∧
    (∃ v, normalize tNoCareerGMP "advanced" false = Except.ok v ∧
      "G" ∉ v.header ∧ "MP" ∉ v.header) ∧
    (∃ v, normalize tNoCareerGMP "per_game" false = Except.ok v ∧
      "G" ∈ v.header ∧ "MP" ∈ v.header) :=
  ⟨by decide, rfl,
   (C4_advanced_drop tNoCareerGMP "advanced" false _ rfl (by decide) (by decide)).1
     (by decide),
   (C4_advanced_drop tNoCareerGMP "per_game" false _ rfl (by decide) (by decide)).2
     (by decide)⟩

/-- C6: on a table carrying a duplicated raw label — `FG` at one position
and its positional duplicate marker `FG.1` at another — the rename passes of
`normalize` leave the first occurrence as the count form `FG` and turn the
second into the canonical percentage form `FG%` (likewise `eFG` to `eFG%`
and `FT.1` to `FT%`); this disambiguation leaves rows untouched and, inside
`normalize`, runs before the career/season split. -/
theorem C6_dup_rename (t : Table) (i j : Nat)
    (hi : t.header[i]? = some "FG") (hj : t.header[j]? = some "FG.1") :
    (renameDup (renameFixed t)).header[i]? = some "FG" ∧
    (renameDup (renameFixed t)).header[j]? = some "FG%" ∧
    (∀ p : Nat, t.header[p]? = some "eFG" →
      (renameDup (renameFixed t)).header[p]? = some "eFG%") ∧
    (∀ p : Nat, t.header[p]? = some "FT.1" →
      (renameDup (renameFixed t)).header[p]? = some "FT%") ∧
    (renameDup (renameFixed t)).rows = t.rows ∧
    (∀ u st car, normalize u st car =
      (careerSplit (renameDup (renameFixed u)) car).bind (fun w =>
        (advancedDrop st (pctRename w)).map (fun v => if car then v else resetIndex v))) := by
  have hfix : ∀ (p : Nat) (l : String), t.header[p]? = some l → renameLabel l = l →
      (renameFixed t).header[p]? = some l := by
    intro p l hp hl
    rw [renameFixed_getElem? t p, hp]
    simp [hl]
  refine ⟨?_, ?_, ?_, ?_, renameDup_renameFixed_rows t, fun u st car => rfl⟩
  · have h1 := hfix i "FG" hi rfl
    have h2 := renameOne_getElem?_ne "FG.1" "FG%" (renameFixed t) i "FG" h1 (by decide)
    have h3 := renameOne_getElem?_ne "eFG" "eFG%" _ i "FG" h2 (by decide)
    exact renameOne_getElem?_ne "FT.1" "FT%" _ i "FG" h3 (by decide)
  · have h1 := hfix j "FG.1" hj rfl
    have h2 := renameOne_getElem?_eq "FG.1" "FG%" (renameFixed t) j h1
    have h3 := renameOne_getElem?_ne "eFG" "eFG%" _ j "FG%" h2 (by decide)
    exact renameOne_getElem?_ne "FT.1" "FT%" _ j "FG%" h3 (by decide)
  · intro p hp
    have h1 := hfix p "eFG" hp rfl
    have h2 := renameOne_getElem?_ne "FG.1" "FG%" (renameFixed t) p "eFG" h1 (by decide)
    have h3 := renameOne_getElem?_eq "eFG" "eFG%" _ p h2
    exact renameOne_getElem?_ne "FT.1" "FT%" _ p "eFG%" h3 (by decide)
  · intro p hp
    have h1 := hfix p "FT.1" hp rfl
    have h2 := renameOne_getElem?_ne "FG.1" "FG%" (renameFixed t) p "FT.1" h1 (by decide)
    have h3 := renameOne_getElem?_ne "eFG" "eFG%" _ p "FT.1" h2 (by decide)
    exact renameOne_getElem?_eq "FT.1" "FT%" _ p h3

/-- C6 witness: on a raw header `Season, FG, FG.1` the first occurrence
stays `FG` and the positional duplicate becomes `FG%`. -/
theorem C6_dup_rename_witness :
    ((⟨["Season", "FG", "FG.1"], [[some "2021-22", some "9.8", some "0.504"]]⟩ :
        Table).header[1]? = some "FG") ∧
    ((⟨["Season", "FG", "FG.1"], [[some "2021-22", some "9.8", some "0.504"]]⟩ :
        Table).header[2]? = some "FG.1") ∧
    (renameDup (renameFixed
        ⟨["Season", "FG", "FG.1"], [[some "2021-22", some "9.8", some "0.504"]]⟩)).header[1]?
      = some "FG" ∧
    (renameDup (renameFixed
        ⟨["Season", "FG", "FG.1"], [[some "2021-22", some "9.8", some "0.504"]]⟩)).header[2]?
      = some "FG%" :=
  ⟨rfl, rfl,
   (C6_dup_rename ⟨["Season", "FG", "FG.1"], [[some "2021-22", some "9.8", some "0.504"]]⟩
     1 2 rfl rfl).1,
   (C6_dup_rename ⟨["Season", "FG", "FG.1"], [[some "2021-22", some "9.8", some "0.504"]]⟩
     1 2 rfl rfl).2.1⟩

/-- Every `Except.ok` result of the career-stats handler body is either the
early "no stats found" error-shaped mapping or a result mapping whose first
entry is the player name. -/
theorem career_stats_body_ok_shape (env : ScraperEnv) (pn st : String) (r : Response)
    (h : get_player_career_stats_body env pn st = Except.ok r) :
    (∃ msg, r = [("error", Val.str msg)]) ∨
    List.lookup "player_name" r = some (Val.str pn) := by
  unfold get_player_career_stats_body at h
  cases hf1 : get_stats_fixed env pn st false false with
  | error e =>
    simp only [hf1] at h
    exact Except.noConfusion h
  | ok regular =>
    simp only [hf1] at h
    cases hf2 : get_stats_fixed env pn st true false with
    | error e =>
      simp only [hf2] at h
      exact Except.noConfusion h
    | ok playoff =>
      simp only [hf2] at h
      cases hE : regular.rows.isEmpty with
      | true =>
        simp only [hE, if_true] at h
        exact Or.inl ⟨"No stats found for " ++ pn, ((Except.ok.injEq _ _).mp h).symm⟩
      | false =>
        simp only [hE, Bool.false_eq_true, if_false] at h
        cases hS : List.findIdx? (fun l => l == "SEASON") regular.header with
        | none =>
          simp only [hS] at h
          exact Except.noConfusion h
        | some jS =>
          simp only [hS] at h
          cases hPE : playoff.rows.isEmpty with
          | true =>
            simp only [hPE, if_true] at h
            rw [← ((Except.ok.injEq _ _).mp h)]
            right
            simp [List.lookup]
          | false =>
            simp only [hPE, Bool.false_eq_true, if_false] at h
            cases hS2 : List.findIdx? (fun l => l == "SEASON") playoff.header with
            | none =>
              simp only [hS2] at h
              exact Except.noConfusion h
            | some jQ =>
              simp only [hS2] at h
              rw [← ((Except.ok.injEq _ _).mp h)]
              right
              simp [List.lookup]

/-- C8: the remote-callable tool `get_player_career_stats` never raises to
its caller — for every environment and input it returns either a result
mapping (headed by the player name) or a mapping with an `error` string
field; every fault in the body (upstream fetch faults included) is caught at
the handler boundary and converted into that error-mapping shape. -/
theorem C8_handler_never_raises (env : ScraperEnv) (pn st : String) :
    (∃ msg, get_player_career_stats env pn st = [("error", Val.str msg)]) ∨
    List.lookup "player_name" (get_player_career_stats env pn st) =
      some (Val.str pn) := by
  unfold get_player_career_stats
  cases hb : get_player_career_stats_body env pn st with
  | error e => exact Or.inl ⟨e, rfl⟩
  | ok r =>
    have hs := career_stats_body_ok_shape env pn st r hb
    rcases hs with ⟨m, hm⟩ | hl
    · exact Or.inl ⟨m, hm⟩
    · exact Or.inr hl

/-- The environment of C7's failing input: the player page fetch succeeds
(HTTP 200) but the requested table is absent from the document, and the
selenium lookup also finds no table. -/
def missingTableEnv : ScraperEnv :=
  ⟨some "players/j/jamesle01.html", 200, fun _ => Option.none, fun _ => Option.none⟩

/-- C7: `get_stats_fixed` does raise on a "not found" case.  When the
non-playoff PER_GAME path fetches the page successfully but the document
lacks the `per_game_stats` table, `str(soup.find(...))` turns the missing
table into the string `"None"`, the `table is None` guard of line 59 never
fires, and `pd.read_html` raises a ValueError — while on the selenium path
(PER_MINUTE) the same absent table is returned as the empty DataFrame, the
behavior lines 59-60 intend for every not-found case. -/
theorem C7_missing_table_raises :
    get_stats_fixed missingTableEnv "LeBron James" "PER_GAME" false false =
      Except.error "ValueError: No tables found" ∧
    get_stats_fixed missingTableEnv "LeBron James" "PER_MINUTE" false false =
      Except.ok Table.empty ∧
    (∀ stat playoffs career,
      get_stats_fixed ⟨Option.none, 200, fun _ => Option.none, fun _ => Option.none⟩
        "Unknown Player" stat playoffs career = Except.ok Table.empty) := by
  refine ⟨rfl, rfl, fun stat playoffs career => rfl⟩

end NbaStats
